import Mathlib

/-!
Shallow embedding of `src/dyn_styles.rs` from the `owo-colors` repository:
the runtime `Style` builder and the ANSI SGR renderer (`impl_fmt!` /
`text_effect_fmt!`), together with proofs of the specification's claims
about them.

Formatter model: a render is a sequence of writes to a sink of type `σ`;
each write may fail with an error `ε`.  A failing step returns
`Except.error (f, e)` where `f` is the sink state at the moment of failure
(mirroring Rust's `fmt::Formatter`, whose buffer keeps everything written
before an `Err` is returned).  The concrete sink used for whole-output
statements is `String` with infallible appending writes.
-/

/-- Modelled from the spec: the closed color variant (`AnsiColors` in the
repository, defined outside `src/`): 8 standard named colors, `Default`,
and 8 bright variants. -/
inductive AnsiColors where
  | Black
  | Red
  | Green
  | Yellow
  | Blue
  | Magenta
  | Cyan
  | White
  | Default
  | BrightBlack
  | BrightRed
  | BrightGreen
  | BrightYellow
  | BrightBlue
  | BrightMagenta
  | BrightCyan
  | BrightWhite
deriving DecidableEq, Repr

/-- Modelled from the spec: the runtime color union (`DynColors` in the
repository, defined outside `src/`): a named ANSI color or a true-color
RGB value (each channel an 8-bit value; represented here as `Nat`, only
ever printed). -/
inductive DynColors where
  | Ansi (c : AnsiColors)
  | Rgb (r g b : Nat)
deriving DecidableEq, Repr

/-- Modelled from the spec: the raw SGR foreground parameter for a named
color (single numeric code; standard 30-37, default 39, bright 90-97).
The values for `White`, `Blue`, `BrightWhite` are pinned by the tests in
`src/dyn_styles.rs`. -/
def AnsiColors.fgCode : AnsiColors → Nat
  | .Black => 30
  | .Red => 31
  | .Green => 32
  | .Yellow => 33
  | .Blue => 34
  | .Magenta => 35
  | .Cyan => 36
  | .White => 37
  | .Default => 39
  | .BrightBlack => 90
  | .BrightRed => 91
  | .BrightGreen => 92
  | .BrightYellow => 93
  | .BrightBlue => 94
  | .BrightMagenta => 95
  | .BrightCyan => 96
  | .BrightWhite => 97

/-- Modelled from the spec: the raw SGR background parameter for a named
color (40-series; standard 40-47, default 49, bright 100-107). -/
def AnsiColors.bgCode : AnsiColors → Nat
  | .Black => 40
  | .Red => 41
  | .Green => 42
  | .Yellow => 43
  | .Blue => 44
  | .Magenta => 45
  | .Cyan => 46
  | .White => 47
  | .Default => 49
  | .BrightBlack => 100
  | .BrightRed => 101
  | .BrightGreen => 102
  | .BrightYellow => 103
  | .BrightBlue => 104
  | .BrightMagenta => 105
  | .BrightCyan => 106
  | .BrightWhite => 107

/-- Modelled from the spec: `DynColor::fmt_raw_ansi_fg` for `DynColors`
(defined outside `src/`): a named color emits its single numeric code,
a true-color value emits the extended `38;2;R;G;B` sequence. -/
def fmt_raw_ansi_fg : DynColors → String
  | .Ansi c => toString c.fgCode
  | .Rgb r g b => "38;2;" ++ toString r ++ ";" ++ toString g ++ ";" ++ toString b

/-- Modelled from the spec: `DynColor::fmt_raw_ansi_bg` for `DynColors`
(defined outside `src/`): the background analogue, `48`-prefixed for
true color. -/
def fmt_raw_ansi_bg : DynColors → String
  | .Ansi c => toString c.bgCode
  | .Rgb r g b => "48;2;" ++ toString r ++ ";" ++ toString g ++ ";" ++ toString b

/-- `Effect` from `src/dyn_styles.rs`: a runtime-configurable text effect. -/
inductive Effect where
  | Bold
  | Dimmed
  | Italic
  | Underline
  | Blink
  | BlinkFast
  | Reversed
  | Hidden
  | Strikethrough
deriving DecidableEq, Repr

/-- `Style` from `src/dyn_styles.rs`: optional foreground and background
colors plus nine boolean effect flags; `Default` has all fields unset. -/
structure Style where
  fg : Option DynColors := none
  bg : Option DynColors := none
  bold : Bool := false
  dimmed : Bool := false
  italic : Bool := false
  underline : Bool := false
  blink : Bool := false
  blink_fast : Bool := false
  reversed : Bool := false
  hidden : Bool := false
  strikethrough : Bool := false
deriving DecidableEq, Repr

/-- `Styled<T>` from `src/dyn_styles.rs`: a wrapper pairing a style with a
target value. -/
structure Styled (τ : Type) where
  target : τ
  style : Style

/-- `Style::new`: the default style. -/
def Style.new : Style := {}

/-- `Style::style`: bind this style (by copy) to a target value. -/
def Style.style {τ : Type} (s : Style) (target : τ) : Styled τ :=
  { target := target, style := s }

/-- `Style::fg::<C>` (generic foreground setter); `C::into_dyncolors()` is
passed here as the already-converted `DynColors` value. -/
def Style.fgC (s : Style) (c : DynColors) : Style := { s with fg := some c }

/-- `Style::bg::<C>` (generic background setter). -/
def Style.bgC (s : Style) (c : DynColors) : Style := { s with bg := some c }

/-- `Style::remove_fg`: clear the foreground slot to unset. -/
def Style.remove_fg (s : Style) : Style := { s with fg := none }

/-- `Style::remove_bg`: clear the background slot to unset. -/
def Style.remove_bg (s : Style) : Style := { s with bg := none }

/-- `Style::black` (from the `color_methods!` expansion). -/
def Style.black (s : Style) : Style := { s with fg := some (.Ansi .Black) }

/-- `Style::on_black`. -/
def Style.on_black (s : Style) : Style := { s with bg := some (.Ansi .Black) }

/-- `Style::red`. -/
def Style.red (s : Style) : Style := { s with fg := some (.Ansi .Red) }

/-- `Style::on_red`. -/
def Style.on_red (s : Style) : Style := { s with bg := some (.Ansi .Red) }

/-- `Style::green`. -/
def Style.green (s : Style) : Style := { s with fg := some (.Ansi .Green) }

/-- `Style::on_green`. -/
def Style.on_green (s : Style) : Style := { s with bg := some (.Ansi .Green) }

/-- `Style::yellow`. -/
def Style.yellow (s : Style) : Style := { s with fg := some (.Ansi .Yellow) }

/-- `Style::on_yellow`. -/
def Style.on_yellow (s : Style) : Style := { s with bg := some (.Ansi .Yellow) }

/-- `Style::blue`. -/
def Style.blue (s : Style) : Style := { s with fg := some (.Ansi .Blue) }

/-- `Style::on_blue`. -/
def Style.on_blue (s : Style) : Style := { s with bg := some (.Ansi .Blue) }

/-- `Style::magenta`. -/
def Style.magenta (s : Style) : Style := { s with fg := some (.Ansi .Magenta) }

/-- `Style::on_magenta`. -/
def Style.on_magenta (s : Style) : Style := { s with bg := some (.Ansi .Magenta) }

/-- `Style::purple` (same `AnsiColors::Magenta` payload as `Style::magenta`). -/
def Style.purple (s : Style) : Style := { s with fg := some (.Ansi .Magenta) }

/-- `Style::on_purple`. -/
def Style.on_purple (s : Style) : Style := { s with bg := some (.Ansi .Magenta) }

/-- `Style::cyan`. -/
def Style.cyan (s : Style) : Style := { s with fg := some (.Ansi .Cyan) }

/-- `Style::on_cyan`. -/
def Style.on_cyan (s : Style) : Style := { s with bg := some (.Ansi .Cyan) }

/-- `Style::white`. -/
def Style.white (s : Style) : Style := { s with fg := some (.Ansi .White) }

/-- `Style::on_white`. -/
def Style.on_white (s : Style) : Style := { s with bg := some (.Ansi .White) }

/-- `Style::default_color`: set the foreground to the explicit terminal
default color (distinct from unset). -/
def Style.default_color (s : Style) : Style := { s with fg := some (.Ansi .Default) }

/-- `Style::on_default_color`. -/
def Style.on_default_color (s : Style) : Style := { s with bg := some (.Ansi .Default) }

/-- `Style::bright_black`. -/
def Style.bright_black (s : Style) : Style := { s with fg := some (.Ansi .BrightBlack) }

/-- `Style::on_bright_black`. -/
def Style.on_bright_black (s : Style) : Style := { s with bg := some (.Ansi .BrightBlack) }

/-- `Style::bright_red`. -/
def Style.bright_red (s : Style) : Style := { s with fg := some (.Ansi .BrightRed) }

/-- `Style::on_bright_red`. -/
def Style.on_bright_red (s : Style) : Style := { s with bg := some (.Ansi .BrightRed) }

/-- `Style::bright_green`. -/
def Style.bright_green (s : Style) : Style := { s with fg := some (.Ansi .BrightGreen) }

/-- `Style::on_bright_green`. -/
def Style.on_bright_green (s : Style) : Style := { s with bg := some (.Ansi .BrightGreen) }

/-- `Style::bright_yellow`. -/
def Style.bright_yellow (s : Style) : Style := { s with fg := some (.Ansi .BrightYellow) }

/-- `Style::on_bright_yellow`. -/
def Style.on_bright_yellow (s : Style) : Style := { s with bg := some (.Ansi .BrightYellow) }

/-- `Style::bright_blue`. -/
def Style.bright_blue (s : Style) : Style := { s with fg := some (.Ansi .BrightBlue) }

/-- `Style::on_bright_blue`. -/
def Style.on_bright_blue (s : Style) : Style := { s with bg := some (.Ansi .BrightBlue) }

/-- `Style::bright_magenta`. -/
def Style.bright_magenta (s : Style) : Style := { s with fg := some (.Ansi .BrightMagenta) }

/-- `Style::on_bright_magenta`. -/
def Style.on_bright_magenta (s : Style) : Style := { s with bg := some (.Ansi .BrightMagenta) }

/-- `Style::bright_purple` (same payload as `Style::bright_magenta`). -/
def Style.bright_purple (s : Style) : Style := { s with fg := some (.Ansi .BrightMagenta) }

/-- `Style::on_bright_purple`. -/
def Style.on_bright_purple (s : Style) : Style := { s with bg := some (.Ansi .BrightMagenta) }

/-- `Style::bright_cyan`. -/
def Style.bright_cyan (s : Style) : Style := { s with fg := some (.Ansi .BrightCyan) }

/-- `Style::on_bright_cyan`. -/
def Style.on_bright_cyan (s : Style) : Style := { s with bg := some (.Ansi .BrightCyan) }

/-- `Style::bright_white`. -/
def Style.bright_white (s : Style) : Style := { s with fg := some (.Ansi .BrightWhite) }

/-- `Style::on_bright_white`. -/
def Style.on_bright_white (s : Style) : Style := { s with bg := some (.Ansi .BrightWhite) }

/-- `Style::color`: runtime foreground setter; `color.get_dyncolors_fg()`
for a `DynColors` argument is the value itself (modelled from the spec,
the trait impl being outside `src/`). -/
def Style.color (s : Style) (c : DynColors) : Style := { s with fg := some c }

/-- `Style::on_color`: runtime background setter. -/
def Style.on_color (s : Style) (c : DynColors) : Style := { s with bg := some c }

/-- `Style::fg_rgb::<R, G, B>`. -/
def Style.fg_rgb (s : Style) (r g b : Nat) : Style := { s with fg := some (.Rgb r g b) }

/-- `Style::bg_rgb::<R, G, B>`. -/
def Style.bg_rgb (s : Style) (r g b : Nat) : Style := { s with bg := some (.Rgb r g b) }

/-- `Style::truecolor`. -/
def Style.truecolor (s : Style) (r g b : Nat) : Style := { s with fg := some (.Rgb r g b) }

/-- `Style::on_truecolor`. -/
def Style.on_truecolor (s : Style) (r g b : Nat) : Style := { s with bg := some (.Rgb r g b) }

/-- `Style::set_effect`: set one effect flag to a given value. -/
def Style.set_effect (s : Style) (e : Effect) (v : Bool) : Style :=
  match e with
  | .Bold => { s with bold := v }
  | .Dimmed => { s with dimmed := v }
  | .Italic => { s with italic := v }
  | .Underline => { s with underline := v }
  | .Blink => { s with blink := v }
  | .BlinkFast => { s with blink_fast := v }
  | .Reversed => { s with reversed := v }
  | .Hidden => { s with hidden := v }
  | .Strikethrough => { s with strikethrough := v }

/-- `Style::set_effects`: apply `set_effect` to each entry of the list in
order. -/
def Style.set_effects (s : Style) (es : List Effect) (v : Bool) : Style :=
  es.foldl (fun s e => s.set_effect e v) s

/-- `Style::effect`. -/
def Style.effect (s : Style) (e : Effect) : Style := s.set_effect e true

/-- `Style::remove_effect`. -/
def Style.remove_effect (s : Style) (e : Effect) : Style := s.set_effect e false

/-- `Style::effects`. -/
def Style.effects (s : Style) (es : List Effect) : Style := s.set_effects es true

/-- `Style::remove_effects`. -/
def Style.remove_effects (s : Style) (es : List Effect) : Style := s.set_effects es false

/-- `Style::remove_all_effects`: set all nine effect flags to `false`. -/
def Style.remove_all_effects (s : Style) : Style :=
  { s with bold := false, dimmed := false, italic := false, underline := false,
           blink := false, blink_fast := false, reversed := false, hidden := false,
           strikethrough := false }

/-- The `format_effect` disjunction computed in `impl_fmt!`. -/
def format_effect (s : Style) : Bool :=
  s.bold || s.dimmed || s.italic || s.underline || s.blink || s.blink_fast
    || s.reversed || s.hidden || s.strikethrough

/-- The `format_color` disjunction computed in `impl_fmt!`. -/
def format_color (s : Style) : Bool := s.fg.isSome || s.bg.isSome

/-- The `format_any` disjunction computed in `impl_fmt!`. -/
def format_any (s : Style) : Bool := format_color s || format_effect s

/-- The nine (flag, numeric code) pairs in the fixed order of the
`text_effect_fmt!` invocation in `impl_fmt!`. -/
def effectCodes (s : Style) : List (Bool × String) :=
  [(s.bold, "1"), (s.dimmed, "2"), (s.italic, "3"), (s.underline, "4"),
   (s.blink, "5"), (s.blink_fast, "6"), (s.reversed, "7"), (s.hidden, "8"),
   (s.strikethrough, "9")]

/-- The `text_effect_fmt!` macro expansion: for each pair in order, if the
flag is set, write a separating semicolon when the `semicolon` flag is
already true, write the code, and continue with the flag set to true. -/
def text_effect_fmt {σ ε : Type} (w : String → σ → Except (σ × ε) σ) :
    List (Bool × String) → σ → Bool → Except (σ × ε) (σ × Bool)
  | [], f, semicolon => pure (f, semicolon)
  | (flag, code) :: rest, f, semicolon =>
    if flag then do
      let f ← if semicolon then w ";" f else pure f
      let f ← w code f
      text_effect_fmt w rest f true
    else
      text_effect_fmt w rest f semicolon

/-- The `fmt` body generated by `impl_fmt!` for `Styled<T>`, generic over
the write primitive `w` (one call per `f.write_str`) and the wrapped
value's own formatter `tFmt` (the `<T as Trait>::fmt(&self.target, f)`
call).  Faithful to the source: the `semicolon` flag starts false, is set
only in the foreground branch, the background branch writes a semicolon
only when a foreground is present, and the reset is written only when
`format_any` holds. -/
def Styled.fmt {τ σ ε : Type} (x : Styled τ) (w : String → σ → Except (σ × ε) σ)
    (tFmt : τ → σ → Except (σ × ε) σ) (f0 : σ) : Except (σ × ε) σ := do
  let s := x.style
  let f ← if format_any s then w "\x1b[" f0 else pure f0
  let (f, semicolon) ←
    match s.fg with
    | some fg => do
      let f ← w (fmt_raw_ansi_fg fg) f
      pure (f, true)
    | none => pure (f, false)
  let f ←
    match s.bg with
    | some bg => do
      let f ← if s.fg.isSome then w ";" f else pure f
      w (fmt_raw_ansi_bg bg) f
    | none => pure f
  let r ← text_effect_fmt w (effectCodes s) f semicolon
  let f := r.1
  let f ← if format_any s then w "m" f else pure f
  let f ← tFmt x.target f
  if format_any s then w "\x1b[0m" f else pure f

/-- The infallible appending write on the concrete `String` sink. -/
def okW {ε : Type} (w : String) (f : String) : Except (String × ε) String :=
  .ok (f ++ w)

/-- The content formatter of a plain string: it writes itself (the
`Display` impl of `str`). -/
def contentW {ε : Type} (txt : String) (f : String) : Except (String × ε) String :=
  .ok (f ++ txt)

/-- Render a style over string content: run the generated `fmt` body on an
initially empty `String` sink with infallible writes. -/
def render (s : Style) (txt : String) : String :=
  match (s.style txt).fmt (okW (ε := Empty)) (fun t f => contentW t f) "" with
  | .ok out => out
  | .error pe => pe.2.elim

/-- Pure mirror of `text_effect_fmt` on the appending `String` sink: the
string its writes append. -/
def text_effect_str : List (Bool × String) → Bool → String
  | [], _ => ""
  | (flag, code) :: rest, semi =>
    if flag then (if semi then ";" else "") ++ code ++ text_effect_str rest true
    else text_effect_str rest semi

/-- The final value of the `semicolon` flag after `text_effect_fmt`. -/
def tefFlag : List (Bool × String) → Bool → Bool
  | [], semi => semi
  | (flag, _) :: rest, semi =>
    if flag then tefFlag rest true else tefFlag rest semi

/-- The token contributed by the foreground slot (empty when unset). -/
def fgPart (s : Style) : String :=
  match s.fg with
  | some fg => fmt_raw_ansi_fg fg
  | none => ""

/-- The bare code contributed by the background slot (empty when unset). -/
def bgCode (s : Style) : String :=
  match s.bg with
  | some bg => fmt_raw_ansi_bg bg
  | none => ""

/-- The token contributed by the background slot, with its leading
semicolon when a foreground is present. -/
def bgPart (s : Style) : String :=
  match s.bg with
  | some bg => (if s.fg.isSome then ";" else "") ++ fmt_raw_ansi_bg bg
  | none => ""

/-- The full semicolon-joined SGR parameter list a style produces. -/
def sgrParams (s : Style) : String :=
  fgPart s ++ bgPart s ++ text_effect_str (effectCodes s) s.fg.isSome

/-- Everything the renderer writes before the content. -/
def ansiPre (s : Style) : String :=
  if format_any s then "\x1b[" ++ sgrParams s ++ "m" else ""

/-- Everything the renderer writes after the content. -/
def ansiSuf (s : Style) : String :=
  if format_any s then "\x1b[0m" else ""

lemma ok_bind {α β γ : Type} (a : α) (k : α → Except γ β) :
    (Except.ok a : Except γ α) >>= k = k a := rfl

lemma err_bind {α β γ : Type} (e : γ) (k : α → Except γ β) :
    (Except.error e : Except γ α) >>= k = Except.error e := rfl

lemma pure_eq_ok {α γ : Type} (a : α) : (pure a : Except γ α) = Except.ok a := rfl

/-- On the appending sink, `text_effect_fmt` appends `text_effect_str` and
finishes with the `tefFlag` semicolon state. -/
lemma tef_ok {ε : Type} (l : List (Bool × String)) (f : String) (semi : Bool) :
    text_effect_fmt (okW (ε := ε)) l f semi
      = Except.ok (f ++ text_effect_str l semi, tefFlag l semi) := by
  induction l generalizing f semi with
  | nil => simp [text_effect_fmt, text_effect_str, tefFlag, pure_eq_ok, String.append_empty]
  | cons p rest ih =>
    obtain ⟨flag, code⟩ := p
    cases flag with
    | false => simp [text_effect_fmt, text_effect_str, tefFlag, ih]
    | true =>
      cases semi with
      | false =>
        simp [text_effect_fmt, text_effect_str, tefFlag, okW, ih,
          pure_eq_ok, ok_bind, String.append_assoc, String.empty_append]
      | true =>
        simp [text_effect_fmt, text_effect_str, tefFlag, okW, ih,
          pure_eq_ok, ok_bind, String.append_assoc]

/-- When no effect flag is set, the effect chain writes nothing. -/
lemma tes_none (s : Style) (h : format_effect s = false) (b : Bool) :
    text_effect_str (effectCodes s) b = "" := by
  simp only [format_effect, Bool.or_eq_false_iff] at h
  obtain ⟨⟨⟨⟨⟨⟨⟨⟨h1, h2⟩, h3⟩, h4⟩, h5⟩, h6⟩, h7⟩, h8⟩, h9⟩ := h
  simp [effectCodes, text_effect_str, h1, h2, h3, h4, h5, h6, h7, h8, h9]

/-- Characterization of the generated `fmt` body on the appending sink:
it hands the content formatter the sink extended with `ansiPre`, then
appends `ansiSuf` on success and propagates any failure unchanged. -/
lemma fmt_okW_eq {τ ε : Type} (t : τ) (s : Style)
    (tFmt : τ → String → Except (String × ε) String) (f0 : String) :
    (Styled.mk t s).fmt okW tFmt f0
      = tFmt t (f0 ++ ansiPre s) >>= fun f => Except.ok (f ++ ansiSuf s) := by
  cases hfg : s.fg with
  | some fgc =>
    have hfa : format_any s = true := by
      simp [format_any, format_color, hfg]
    cases hbg : s.bg with
    | some bgc =>
      simp [Styled.fmt, okW, hfg, hbg, hfa, tef_ok, ansiPre, ansiSuf, sgrParams,
        fgPart, bgPart, pure_eq_ok, ok_bind, String.append_assoc]
    | none =>
      simp [Styled.fmt, okW, hfg, hbg, hfa, tef_ok, ansiPre, ansiSuf, sgrParams,
        fgPart, bgPart, pure_eq_ok, ok_bind, String.append_assoc, String.append_empty]
  | none =>
    cases hbg : s.bg with
    | some bgc =>
      have hfa : format_any s = true := by
        simp [format_any, format_color, hbg]
      simp [Styled.fmt, okW, hfg, hbg, hfa, tef_ok, ansiPre, ansiSuf, sgrParams,
        fgPart, bgPart, pure_eq_ok, ok_bind, String.append_assoc,
        String.empty_append]
    | none =>
      have hfa : format_any s = format_effect s := by
        simp [format_any, format_color, hfg, hbg]
      cases hfe : format_effect s with
      | true =>
        rw [hfe] at hfa
        simp [Styled.fmt, okW, hfg, hbg, hfa, tef_ok, ansiPre, ansiSuf, sgrParams,
          fgPart, bgPart, pure_eq_ok, ok_bind, String.append_assoc,
          String.empty_append]
      | false =>
        rw [hfe] at hfa
        simp [Styled.fmt, okW, hfg, hbg, hfa, tef_ok, ansiPre, ansiSuf, sgrParams,
          fgPart, bgPart, pure_eq_ok, ok_bind, tes_none s hfe,
          String.append_empty]

/-- The concrete render: ANSI prefix, then the content, then the suffix. -/
lemma render_eq (s : Style) (txt : String) :
    render s txt = ansiPre s ++ txt ++ ansiSuf s := by
  unfold render
  rw [show s.style txt = Styled.mk txt s from rfl, fmt_okW_eq]
  simp [contentW, ok_bind, String.empty_append, String.append_assoc]

/-- Read the effect flag of a style corresponding to an `Effect` value. -/
def effectGet (s : Style) : Effect → Bool
  | .Bold => s.bold
  | .Dimmed => s.dimmed
  | .Italic => s.italic
  | .Underline => s.underline
  | .Blink => s.blink
  | .BlinkFast => s.blink_fast
  | .Reversed => s.reversed
  | .Hidden => s.hidden
  | .Strikethrough => s.strikethrough

lemma get_set_effect_true (s : Style) (a e : Effect) :
    effectGet (s.set_effect a true) e = (effectGet s e || decide (e = a)) := by
  cases a <;> cases e <;> simp [Style.set_effect, effectGet]

lemma get_foldl_true (es : List Effect) (s : Style) (e : Effect) :
    effectGet (List.foldl (fun s a => s.set_effect a true) s es) e
      = (effectGet s e || decide (e ∈ es)) := by
  induction es generalizing s with
  | nil => simp
  | cons a rest ih =>
    simp [List.foldl_cons, ih, get_set_effect_true, List.mem_cons, Bool.or_assoc,
      Bool.decide_or, Bool.or_comm]

/-- The escape character introducing every ANSI escape sequence. -/
def escChar : Char := '\x1b'

/-- C1: the code violates the claim's separator rule.  Evaluating the
renderer at the failing input — background blue, no foreground, bold
active, content `TEST` — produces `ESC[441mTEST ESC[0m`: the background
code `44` and the effect code `1` are concatenated with no semicolon
(the background branch of `impl_fmt!` never sets the `semicolon` flag),
instead of the `ESC[44;1mTEST ESC[0m` the claim requires. -/
theorem C1_code_eval :
    render ((Style.new.on_blue).effect .Bold) "TEST" = "\x1b[441mTEST\x1b[0m"
  ∧ "\x1b[441mTEST\x1b[0m" ≠ "\x1b[44;1mTEST\x1b[0m" := by
  exact ⟨by decide, by decide⟩

/-- C3: `effects([Strikethrough, Underline])` renders `TEST` as
`ESC[4;9mTEST ESC[0m` — the active effects are emitted in the fixed
canonical order (underline code 4 before strikethrough code 9), not in
the order the caller listed them. -/
theorem C3_canonical_effect_order :
    render (Style.new.effects [.Strikethrough, .Underline]) "TEST"
      = "\x1b[4;9mTEST\x1b[0m" := by
  decide

/-- C4: `truecolor(255,255,255).on_truecolor(0,0,0)` renders `TEST` as
`ESC[38;2;255;255;255;48;2;0;0;0mTEST ESC[0m`: the true-color foreground
emits the extended `38;2;R;G;B` sequence with no separator before it, and
the background follows after a single semicolon in the `48`-prefixed
form. -/
theorem C4_truecolor_render :
    render ((Style.new.truecolor 255 255 255).on_truecolor 0 0 0) "TEST"
      = "\x1b[38;2;255;255;255;48;2;0;0;0mTEST\x1b[0m" := by
  decide

/-- C9: the purple-named mutators are pure aliases of the magenta ones:
they produce identical styles on every input. -/
theorem C9_purple_is_magenta_alias (s : Style) :
    s.purple = s.magenta
  ∧ s.on_purple = s.on_magenta
  ∧ s.bright_purple = s.bright_magenta
  ∧ s.on_bright_purple = s.on_bright_magenta :=
  ⟨rfl, rfl, rfl, rfl⟩

/-- C10: `remove_all_effects` leaves both color slots exactly as they were
in the input style; it clears only the nine effect flags. -/
theorem C10_remove_all_effects_preserves_colors (s : Style) :
    (s.remove_all_effects).fg = s.fg ∧ (s.remove_all_effects).bg = s.bg :=
  ⟨rfl, rfl⟩

/-- C7: `effects(list)` sets exactly the listed effect flags to true and
leaves every other flag at its prior value (so it is additive and
insensitive to the order of the list's entries), and `remove_all_effects`
yields all nine flags false regardless of the prior state. -/
theorem C7_effects_additive (s : Style) (es : List Effect) (e : Effect) :
    effectGet (s.effects es) e = (effectGet s e || decide (e ∈ es))
  ∧ effectGet (s.remove_all_effects) e = false := by
  refine ⟨?_, ?_⟩
  · exact get_foldl_true es s e
  · cases e <;> rfl

/-- C5: every foreground color mutator rewrites only the foreground slot,
to a value independent of the prior state (so setting the slot twice
keeps only the second value), and leaves the background slot and all nine
effect flags untouched; symmetrically for the background mutators. -/
theorem C5_color_mutator_frame (s : Style) (c d : DynColors) (r g b : Nat) :
    s.black = { s with fg := some (.Ansi .Black) }
  ∧ s.red = { s with fg := some (.Ansi .Red) }
  ∧ s.green = { s with fg := some (.Ansi .Green) }
  ∧ s.yellow = { s with fg := some (.Ansi .Yellow) }
  ∧ s.blue = { s with fg := some (.Ansi .Blue) }
  ∧ s.magenta = { s with fg := some (.Ansi .Magenta) }
  ∧ s.purple = { s with fg := some (.Ansi .Magenta) }
  ∧ s.cyan = { s with fg := some (.Ansi .Cyan) }
  ∧ s.white = { s with fg := some (.Ansi .White) }
  ∧ s.default_color = { s with fg := some (.Ansi .Default) }
  ∧ s.bright_black = { s with fg := some (.Ansi .BrightBlack) }
  ∧ s.bright_red = { s with fg := some (.Ansi .BrightRed) }
  ∧ s.bright_green = { s with fg := some (.Ansi .BrightGreen) }
  ∧ s.bright_yellow = { s with fg := some (.Ansi .BrightYellow) }
  ∧ s.bright_blue = { s with fg := some (.Ansi .BrightBlue) }
  ∧ s.bright_magenta = { s with fg := some (.Ansi .BrightMagenta) }
  ∧ s.bright_purple = { s with fg := some (.Ansi .BrightMagenta) }
  ∧ s.bright_cyan = { s with fg := some (.Ansi .BrightCyan) }
  ∧ s.bright_white = { s with fg := some (.Ansi .BrightWhite) }
  ∧ s.fgC c = { s with fg := some c }
  ∧ s.color c = { s with fg := some c }
  ∧ s.truecolor r g b = { s with fg := some (.Rgb r g b) }
  ∧ s.fg_rgb r g b = { s with fg := some (.Rgb r g b) }
  ∧ (s.color c).color d = s.color d
  ∧ ((s.color c).color d).fg = some d
  ∧ (s.color c).bg = s.bg
  ∧ s.on_black = { s with bg := some (.Ansi .Black) }
  ∧ s.on_red = { s with bg := some (.Ansi .Red) }
  ∧ s.on_green = { s with bg := some (.Ansi .Green) }
  ∧ s.on_yellow = { s with bg := some (.Ansi .Yellow) }
  ∧ s.on_blue = { s with bg := some (.Ansi .Blue) }
  ∧ s.on_magenta = { s with bg := some (.Ansi .Magenta) }
  ∧ s.on_purple = { s with bg := some (.Ansi .Magenta) }
  ∧ s.on_cyan = { s with bg := some (.Ansi .Cyan) }
  ∧ s.on_white = { s with bg := some (.Ansi .White) }
  ∧ s.on_default_color = { s with bg := some (.Ansi .Default) }
  ∧ s.on_bright_black = { s with bg := some (.Ansi .BrightBlack) }
  ∧ s.on_bright_red = { s with bg := some (.Ansi .BrightRed) }
  ∧ s.on_bright_green = { s with bg := some (.Ansi .BrightGreen) }
  ∧ s.on_bright_yellow = { s with bg := some (.Ansi .BrightYellow) }
  ∧ s.on_bright_blue = { s with bg := some (.Ansi .BrightBlue) }
  ∧ s.on_bright_magenta = { s with bg := some (.Ansi .BrightMagenta) }
  ∧ s.on_bright_purple = { s with bg := some (.Ansi .BrightMagenta) }
  ∧ s.on_bright_cyan = { s with bg := some (.Ansi .BrightCyan) }
  ∧ s.on_bright_white = { s with bg := some (.Ansi .BrightWhite) }
  ∧ s.bgC c = { s with bg := some c }
  ∧ s.on_color c = { s with bg := some c }
  ∧ s.on_truecolor r g b = { s with bg := some (.Rgb r g b) }
  ∧ s.bg_rgb r g b = { s with bg := some (.Rgb r g b) }
  ∧ (s.on_color c).on_color d = s.on_color d
  ∧ ((s.on_color c).on_color d).bg = some d
  ∧ (s.on_color c).fg = s.fg := by
  repeat' apply And.intro
  all_goals rfl

/-- C6: clearing a color slot is distinct from setting it to the explicit
terminal-default color: after `remove_fg` the slot is unset and the
renderer emits no foreground token, while after `default_color` the
renderer emits the explicit default-color code `39`; analogously `49` for
`on_default_color` versus `remove_bg`. -/
theorem C6_unset_vs_default (s : Style) (txt : String) :
    fgPart (s.remove_fg) = ""
  ∧ (s.remove_fg).fg = none
  ∧ fgPart (s.default_color) = "39"
  ∧ bgPart (s.remove_bg) = ""
  ∧ (s.remove_bg).bg = none
  ∧ bgCode (s.on_default_color) = "49"
  ∧ render (Style.new.default_color) txt = "\x1b[39m" ++ txt ++ "\x1b[0m"
  ∧ render (Style.new.remove_fg) txt = txt
  ∧ render (Style.new.on_default_color) txt = "\x1b[49m" ++ txt ++ "\x1b[0m"
  ∧ render (Style.new.remove_bg) txt = txt := by
  refine ⟨rfl, rfl, rfl, rfl, rfl, rfl, ?_, ?_, ?_, ?_⟩
  · rw [render_eq]; rfl
  · rw [render_eq]
    show "" ++ txt ++ "" = txt
    rw [String.empty_append, String.append_empty]
  · rw [render_eq]; rfl
  · rw [render_eq]
    show "" ++ txt ++ "" = txt
    rw [String.empty_append, String.append_empty]

/-- C2 counterexample: the claim's reset-iff-active direction fails as
stated when the content itself contains escape bytes.  For the default
style (no attribute active) over the content `ESC[0m`, the rendered
output is byte-identical to the content, hence it does end with the full
reset sequence and does contain an escape byte, while `format_any` is
false. -/
theorem C2_reset_iff_cex :
    format_any Style.new = false
  ∧ escChar ∈ (render Style.new "\x1b[0m").data
  ∧ ∃ p, render Style.new "\x1b[0m" = p ++ "\x1b[0m" := by
  refine ⟨by decide, by decide, "", ?_⟩
  decide

/-- C2 amended: rendering a default style over any value is byte-identical
to the value's own textual form and introduces no escape byte; and for
content that itself contains no escape byte, the rendered output of any
style ends with the full reset sequence `ESC[0m` exactly when at least
one attribute (a color slot or an effect flag) is active. -/
theorem C2_transparency_and_reset (s : Style) (txt : String) :
    render Style.new txt = txt
  ∧ (escChar ∉ txt.data → escChar ∉ (render Style.new txt).data)
  ∧ (escChar ∉ txt.data →
      ((∃ p, render s txt = p ++ "\x1b[0m") ↔ format_any s = true)) := by
  have hnew : render Style.new txt = txt := by
    rw [render_eq]
    show "" ++ txt ++ "" = txt
    rw [String.empty_append, String.append_empty]
  refine ⟨hnew, fun h => by rwa [hnew], fun h => ?_⟩
  constructor
  · rintro ⟨p, hp⟩
    cases hfa : format_any s with
    | true => rfl
    | false =>
      exfalso
      rw [render_eq, ansiPre, ansiSuf, hfa] at hp
      rw [if_neg (by simp), if_neg (by simp), String.empty_append,
        String.append_empty] at hp
      apply h
      rw [hp, String.data_append]
      exact List.mem_append_right _ (by decide)
  · intro hfa
    refine ⟨ansiPre s ++ txt, ?_⟩
    rw [render_eq, ansiSuf, hfa, if_pos rfl]

/-- C2 witness: the amended statement at concrete inputs — the default
style is transparent on `TEST`, and for the red style over `TEST` the
output ends with the reset sequence, matching the active attribute. -/
theorem C2_transparency_and_reset_witness :
    escChar ∉ ("TEST" : String).data
  ∧ render Style.new "TEST" = "TEST"
  ∧ ((∃ p, render (Style.new.red) "TEST" = p ++ "\x1b[0m")
      ↔ format_any (Style.new.red) = true) := by
  have h := C2_transparency_and_reset (Style.new.red) "TEST"
  exact ⟨by decide, h.1, h.2.2 (by decide)⟩

/-- C8: failure propagation of the generated `fmt` body.  On the appending
sink, (i) if the wrapped content's formatter fails, the renderer returns
that exact error with the sink exactly as the content formatter left it —
in particular the trailing reset `ESC[0m` has not been written; (ii) on
success the output is the ANSI prefix, the content, then the suffix, so
the sink state handed to the content formatter (`f0 ++ ansiPre s`) is a
prefix of the normal output; (iii) if the sink itself fails on the very
first write, that error is returned unchanged with nothing written and
the content formatter never invoked. -/
theorem C8_error_propagation {τ E : Type} (s : Style) (t : τ)
    (tFmt : τ → String → Except (String × E) String)
    (f0 p : String) (e : E) (txt : String) :
    (tFmt t (f0 ++ ansiPre s) = .error (p, e) →
      (Styled.mk t s).fmt okW tFmt f0 = .error (p, e))
  ∧ (s.style txt).fmt (okW (ε := E)) (fun u f => contentW u f) f0
      = .ok (f0 ++ ansiPre s ++ txt ++ ansiSuf s)
  ∧ (format_any s = true →
      (Styled.mk t s).fmt (fun _ f => Except.error (f, e)) tFmt f0
        = .error (f0, e)) := by
  refine ⟨fun h => ?_, ?_, fun hfa => ?_⟩
  · rw [fmt_okW_eq, h, err_bind]
  · rw [show s.style txt = Styled.mk txt s from rfl, fmt_okW_eq]
    simp [contentW, ok_bind]
  · simp [Styled.fmt, hfa, err_bind]

/-- C8 witness: the propagation statement at concrete inputs — a content
formatter failing with error `7` under the red style, the successful
render of `TEST`, and a sink that fails on its first write. -/
theorem C8_error_propagation_witness :
    (Styled.mk "TEST" (Style.new.red)).fmt okW
        (fun _ f => Except.error (f, 7)) "" = Except.error ("\x1b[31m", 7)
  ∧ ((Style.new.red).style "TEST").fmt (okW (ε := Nat)) (fun u f => contentW u f) ""
      = Except.ok "\x1b[31mTEST\x1b[0m"
  ∧ (Styled.mk "TEST" (Style.new.red)).fmt
        (fun _ f => Except.error (f, 7)) (fun _ f => Except.error (f, 7)) ""
      = Except.error ("", 7) := by
  obtain ⟨h1, h2, h3⟩ := C8_error_propagation (Style.new.red) "TEST"
    (fun _ f => Except.error (f, 7)) "" "\x1b[31m" 7 "TEST"
  exact ⟨h1 rfl, h2.trans (by rfl), h3 (by decide)⟩
